import Mathlib

/-!
Shallow embedding of `ip-watcher` (Go, `src/main.go`) for verification.

The network is modelled as an oracle `net : String → Nat → AttemptOutcome`
giving, for an endpoint URL and the 1-based index of a network call, the
outcome of that HTTP GET: a transport-level error, or a response with a
status code and a body whose read may itself fail.  The Go functions
`fetchExternalIP` and `checkIP` are translated line by line against this
oracle; logging is modelled as the list of formatted lines a run emits.
-/

namespace IPWatcher

/-- Characters that are awkward to write literally. -/
def lbraceChar : Char := Char.ofNat 123

def rbraceChar : Char := Char.ofNat 125

def quoteChar : Char := Char.ofNat 34

def backslashChar : Char := Char.ofNat 92

/-- Outcome of one network call (`client.Get` plus, on a response, the
subsequent `io.ReadAll` of its body): either a transport error with its
cause rendered as a string, or a response with an HTTP status code and
a body read that either fails with a cause or yields the body bytes
(modelled as a `String`). -/
inductive AttemptOutcome where
  | transportErr (cause : String)
  | response (status : Nat) (body : Except String String)
  deriving Repr

/-- The error values `fetchExternalIP` can return, one constructor per
`fmt.Errorf` site in `src/main.go` (lines 141, 151, 161, 167). -/
inductive FetchError where
  /-- line 141: `"failed to make request after %d attempts"` (guard `attempt > maxAttempts`). -/
  | exhaustedNoCause (attempts : Nat)
  /-- line 151: `"failed to make request after %d attempts: %v"`. -/
  | exhaustedTransport (attempts : Nat) (cause : String)
  /-- line 161: `"failed after %d attempts: HTTP status %d"`. -/
  | exhaustedStatus (attempts : Nat) (status : Nat)
  /-- line 167: `"failed to read response: %v"`. -/
  | readFailed (cause : String)
  deriving Repr, DecidableEq

/-- The message each `FetchError` renders to, following the `fmt.Errorf`
format strings of `src/main.go`. -/
def FetchError.message : FetchError → String
  | .exhaustedNoCause n => "failed to make request after " ++ toString n ++ " attempts"
  | .exhaustedTransport n cause =>
      "failed to make request after " ++ toString n ++ " attempts: " ++ cause
  | .exhaustedStatus n status =>
      "failed after " ++ toString n ++ " attempts: HTTP status " ++ toString status
  | .readFailed cause => "failed to read response: " ++ cause

/-- The attempt count an error reports, when it reports one. -/
def FetchError.attemptCount : FetchError → Option Nat
  | .exhaustedNoCause n => some n
  | .exhaustedTransport n _ => some n
  | .exhaustedStatus n _ => some n
  | .readFailed _ => none

/-! ### JSON decoding (model of `json.Unmarshal` into `IPifyResponse`)

`src/main.go` line 172 decodes the body with Go's `encoding/json` into
`struct { IP string `json:"ip"` }`.  The model below follows that decoder:

* the top-level value must be a JSON object (or `null`, which succeeds and
  leaves the field at `""`); any other top-level value, and any syntax
  error, makes `Unmarshal` return an error;
* unknown object members may hold a value of any JSON type and are
  validated and skipped, exactly as Go skips fields with no struct match;
* a member key is matched against the tag `ip` the way Go does — first
  decoding the key's escapes, then comparing case-insensitively.  Go uses
  `strings.EqualFold`; for the pure-ASCII tag `"ip"` (whose Unicode fold
  orbit is `{i, I} × {p, P}`) this coincides with ASCII case folding,
  which is what `equalFoldAscii` implements;
* among several matching members the last one wins, and a matching member
  whose value is `null` leaves the field unchanged, as in Go;
* a matching member whose value is not a string and not `null` is a type
  error; Go then returns a non-nil error, and since the program's only
  test is line 172's `err == nil && ipResponse.IP != ""`, every such body
  is a decode failure here;
* string literals decode the full escape set `\" \\ \/ \b \f \n \r \t`
  and `\uXXXX`, pairing surrogate escapes into one code point and
  replacing unpaired surrogates with U+FFFD, as Go's unquoter does, and
  reject unescaped control characters below U+0020.

`fuel` arguments bound the recursion; they are sized generously from the
input length so that fuel never runs out on a terminating parse. -/

/-- JSON insignificant whitespace. -/
def isJsonWs (c : Char) : Bool :=
  c = ' ' || c = '\t' || c = '\n' || c = '\r'

/-- Drop leading JSON whitespace. -/
def skipWs : List Char → List Char
  | [] => []
  | c :: cs => if isJsonWs c then skipWs cs else c :: cs

/-- Value of a hexadecimal digit, upper- or lowercase. -/
def hexVal (c : Char) : Option Nat :=
  if '0' ≤ c ∧ c ≤ '9' then some (c.toNat - 48)
  else if 'a' ≤ c ∧ c ≤ 'f' then some (c.toNat - 87)
  else if 'A' ≤ c ∧ c ≤ 'F' then some (c.toNat - 55)
  else none

/-- Prepend a decoded character to a string-parse result. -/
def consCat (c : Char) :
    Option (List Char × List Char) → Option (List Char × List Char)
  | some (s, rest) => some (c :: s, rest)
  | none => none

/-- Parse the remainder of a JSON string literal (the opening quote already
consumed), returning the decoded characters and the rest of the input.
Handles the full JSON escape set; `\uXXXX` surrogate pairs are combined and
unpaired surrogates become U+FFFD, following Go's unquoter.  Unescaped
control characters below U+0020 are rejected, as by Go's scanner. -/
def parseStringBody : Nat → List Char → Option (List Char × List Char)
  | 0, _ => none
  | _ + 1, [] => none
  | fuel + 1, c :: cs =>
    if c = quoteChar then some ([], cs)
    else if c.toNat < 32 then none
    else if c = backslashChar then
      match cs with
      | [] => none
      | d :: ds =>
        if d = quoteChar ∨ d = backslashChar ∨ d = '/' then
          consCat d (parseStringBody fuel ds)
        else if d = 'b' then consCat (Char.ofNat 8) (parseStringBody fuel ds)
        else if d = 'f' then consCat (Char.ofNat 12) (parseStringBody fuel ds)
        else if d = 'n' then consCat (Char.ofNat 10) (parseStringBody fuel ds)
        else if d = 'r' then consCat (Char.ofNat 13) (parseStringBody fuel ds)
        else if d = 't' then consCat (Char.ofNat 9) (parseStringBody fuel ds)
        else if d = 'u' then
          match ds with
          | h1 :: h2 :: h3 :: h4 :: rest =>
            match hexVal h1, hexVal h2, hexVal h3, hexVal h4 with
            | some a1, some a2, some a3, some a4 =>
              let n := ((a1 * 16 + a2) * 16 + a3) * 16 + a4
              if 55296 ≤ n ∧ n ≤ 57343 then
                match rest with
                | e1 :: e2 :: j1 :: j2 :: j3 :: j4 :: rest2 =>
                  if e1 = backslashChar ∧ e2 = 'u' then
                    match hexVal j1, hexVal j2, hexVal j3, hexVal j4 with
                    | some b1, some b2, some b3, some b4 =>
                      let m := ((b1 * 16 + b2) * 16 + b3) * 16 + b4
                      if n < 56320 ∧ 56320 ≤ m ∧ m ≤ 57343 then
                        consCat (Char.ofNat (65536 + (n - 55296) * 1024 + (m - 56320)))
                          (parseStringBody fuel rest2)
                      else consCat (Char.ofNat 65533) (parseStringBody fuel rest)
                    | _, _, _, _ => consCat (Char.ofNat 65533) (parseStringBody fuel rest)
                  else consCat (Char.ofNat 65533) (parseStringBody fuel rest)
                | _ => consCat (Char.ofNat 65533) (parseStringBody fuel rest)
              else consCat (Char.ofNat n) (parseStringBody fuel rest)
            | _, _, _, _ => none
          | _ => none
        else none
    else consCat c (parseStringBody fuel cs)

/-- Drop a (possibly empty) run of decimal digits. -/
def dropWhileDigits : List Char → List Char
  | [] => []
  | c :: cs => if c.isDigit then dropWhileDigits cs else c :: cs

/-- Require at least one decimal digit, then return the rest after the run. -/
def digitsThen : List Char → Option (List Char)
  | [] => none
  | c :: cs => if c.isDigit then some (dropWhileDigits cs) else none

/-- Exponent part of a JSON number, after `e`/`E`: optional sign, digits. -/
def parseExpPart : List Char → Option (List Char)
  | [] => none
  | c :: cs => if c = '+' ∨ c = '-' then digitsThen cs else digitsThen (c :: cs)

/-- Optional fraction and exponent of a JSON number. -/
def parseFracExp (input : List Char) : Option (List Char) :=
  let afterFrac : Option (List Char) :=
    match input with
    | '.' :: cs => digitsThen cs
    | cs => some cs
  match afterFrac with
  | none => none
  | some rest =>
    match rest with
    | [] => some []
    | c :: cs => if c = 'e' ∨ c = 'E' then parseExpPart cs else some (c :: cs)

/-- Validate and skip a JSON number (RFC 8259 grammar, as Go's scanner). -/
def parseNumber (input : List Char) : Option (List Char) :=
  let core : List Char → Option (List Char) := fun cs =>
    match cs with
    | [] => none
    | c :: rest =>
      if c = '0' then
        match rest with
        | [] => parseFracExp []
        | d :: _ => if d.isDigit then none else parseFracExp rest
      else if c.isDigit then parseFracExp (dropWhileDigits rest)
      else none
  match input with
  | '-' :: cs => core cs
  | cs => core cs

mutual

/-- Validate and skip one JSON value of any type (used for object members
that do not match the `ip` tag, which Go decodes past without storing). -/
def parseValue : Nat → List Char → Option (List Char)
  | 0, _ => none
  | fuel + 1, input =>
    match skipWs input with
    | [] => none
    | c :: cs =>
      if c = quoteChar then
        match parseStringBody (cs.length + 1) cs with
        | none => none
        | some (_, rest) => some rest
      else if c = lbraceChar then parseObjectRest fuel true cs
      else if c = '[' then parseArrayRest fuel true cs
      else if c = 't' then
        match cs with
        | 'r' :: 'u' :: 'e' :: rest => some rest
        | _ => none
      else if c = 'f' then
        match cs with
        | 'a' :: 'l' :: 's' :: 'e' :: rest => some rest
        | _ => none
      else if c = 'n' then
        match cs with
        | 'u' :: 'l' :: 'l' :: rest => some rest
        | _ => none
      else parseNumber (c :: cs)

/-- Skip the members of a nested JSON object, the opening brace consumed;
`allowEnd` is false right after a comma, so trailing commas are rejected. -/
def parseObjectRest : Nat → Bool → List Char → Option (List Char)
  | 0, _, _ => none
  | fuel + 1, allowEnd, input =>
    match skipWs input with
    | [] => none
    | c :: cs =>
      if c = rbraceChar then
        if allowEnd then some cs else none
      else if c = quoteChar then
        match parseStringBody (cs.length + 1) cs with
        | none => none
        | some (_, afterKey) =>
          match skipWs afterKey with
          | ':' :: afterColon =>
            match parseValue fuel afterColon with
            | none => none
            | some afterVal =>
              match skipWs afterVal with
              | [] => none
              | ',' :: rest => parseObjectRest fuel false rest
              | d :: rest => if d = rbraceChar then some rest else none
          | _ => none
      else none

/-- Skip the elements of a JSON array, the opening bracket consumed. -/
def parseArrayRest : Nat → Bool → List Char → Option (List Char)
  | 0, _, _ => none
  | fuel + 1, allowEnd, input =>
    match skipWs input with
    | [] => none
    | c :: cs =>
      if c = ']' then
        if allowEnd then some cs else none
      else
        match parseValue fuel (c :: cs) with
        | none => none
        | some rest =>
          match skipWs rest with
          | ',' :: rest2 => parseArrayRest fuel false rest2
          | ']' :: rest2 => some rest2
          | _ => none

end

/-- The characters of the struct tag `ip` of `IPifyResponse`. -/
def ipKeyChars : List Char := ['i', 'p']

/-- Case-insensitive ASCII comparison of decoded keys, matching the effect
of Go's `strings.EqualFold` on the ASCII tag `"ip"`. -/
def equalFoldAscii : List Char → List Char → Bool
  | [], [] => true
  | c :: cs, d :: ds => (c.toLower == d.toLower) && equalFoldAscii cs ds
  | _, _ => false

/-- Walk the members of the top-level object, tracking the decoded value of
the last member whose key matches the `ip` tag ( `found` starts empty, as
the zero value of the Go struct field).  A matching member holding `null`
keeps the current value; a matching member holding any other non-string
value is a type error and fails the decode. -/
def parseTopMembers : Nat → List Char → Bool → List Char →
    Option (List Char × List Char)
  | 0, _, _, _ => none
  | fuel + 1, found, allowEnd, input =>
    match skipWs input with
    | [] => none
    | c :: cs =>
      if c = rbraceChar then
        if allowEnd then some (found, cs) else none
      else if c = quoteChar then
        match parseStringBody (cs.length + 1) cs with
        | none => none
        | some (key, afterKey) =>
          match skipWs afterKey with
          | ':' :: afterColon =>
            if equalFoldAscii key ipKeyChars then
              match skipWs afterColon with
              | [] => none
              | v :: vs =>
                if v = quoteChar then
                  match parseStringBody (vs.length + 1) vs with
                  | none => none
                  | some (val, afterVal) =>
                    match skipWs afterVal with
                    | [] => none
                    | ',' :: rest => parseTopMembers fuel val false rest
                    | d :: rest => if d = rbraceChar then some (val, rest) else none
                else if v = 'n' then
                  match vs with
                  | 'u' :: 'l' :: 'l' :: afterVal =>
                    match skipWs afterVal with
                    | [] => none
                    | ',' :: rest => parseTopMembers fuel found false rest
                    | d :: rest => if d = rbraceChar then some (found, rest) else none
                  | _ => none
                else none
            else
              match parseValue fuel afterColon with
              | none => none
              | some afterVal =>
                match skipWs afterVal with
                | [] => none
                | ',' :: rest => parseTopMembers fuel found false rest
                | d :: rest => if d = rbraceChar then some (found, rest) else none
          | _ => none
      else none

/-- Model of `json.Unmarshal(body, &ipResponse)` (main.go line 172):
`some v` means `Unmarshal` returns a nil error and leaves the struct's `IP`
field equal to `v` (possibly empty); `none` means it returns an error —
the two cases line 172's `err == nil && ipResponse.IP != ""` test can
distinguish. -/
def unmarshalIP (raw : String) : Option String :=
  match skipWs raw.data with
  | [] => none
  | 'n' :: 'u' :: 'l' :: 'l' :: rest =>
    match skipWs rest with
    | [] => some ""
    | _ => none
  | c :: cs =>
    if c = lbraceChar then
      match parseTopMembers (3 * raw.length + 16) [] true cs with
      | none => none
      | some (found, rest) =>
        match skipWs rest with
        | [] => some (String.mk found)
        | _ => none
    else none

/-- The body-interpretation step of `fetchExternalIP` (main.go lines
170-177): if JSON decoding succeeds and the `ip` field is non-empty,
return it; otherwise return the raw body verbatim. -/
def parseBody (raw : String) : String :=
  match unmarshalIP raw with
  | some ip => if ip = "" then raw else ip
  | none => raw

/-! ### The Fetcher -/

/-- Translation of `fetchExternalIP` (main.go lines 133-178) against the
network oracle `net`.  Returns the Go function's `(string, error)` result
as an `Except`, paired with the number of network calls the invocation
performed (for the attempt-bounding properties; the Go code performs one
`client.Get` per recursive activation that passes the guard). -/
def fetchExternalIP (net : String → Nat → AttemptOutcome) (endpoint : String)
    (attempt maxAttempts : Nat) : Except FetchError String × Nat :=
  -- line 140: if we've already reached max attempts, fail immediately
  if attempt > maxAttempts then
    (.error (.exhaustedNoCause maxAttempts), 0)
  else
    -- line 145: make request
    match net endpoint attempt with
    | .transportErr cause =>
      -- lines 146-152
      if attempt < maxAttempts then
        let r := fetchExternalIP net endpoint (attempt + 1) maxAttempts
        (r.1, r.2 + 1)
      else
        (.error (.exhaustedTransport maxAttempts cause), 1)
    | .response status body =>
      -- lines 156-162: only proceed with 2xx responses
      if status < 200 || 300 ≤ status then
        if attempt < maxAttempts then
          let r := fetchExternalIP net endpoint (attempt + 1) maxAttempts
          (r.1, r.2 + 1)
        else
          (.error (.exhaustedStatus maxAttempts status), 1)
      else
        -- lines 165-177
        match body with
        | .error cause => (.error (.readFailed cause), 1)
        | .ok raw => (.ok (parseBody raw), 1)
  termination_by maxAttempts + 1 - attempt
  decreasing_by
    all_goals simp_all; omega

/-! ### The Watcher -/

/-- Translation of the Go `Config` struct (main.go lines 17-25).  The
`sync.Mutex` field carries no data and is omitted; `MaxRetries` is a `Nat`
(the program never sets it negative, and every claim assumes it ≥ 1). -/
structure Config where
  Interval : Int
  LogFile : String
  IPEndpoint : String
  QuietMode : Bool
  MaxRetries : Nat
  LastKnownIP : String
  deriving Repr, DecidableEq

/-- Translation of `checkIP` (main.go lines 104-124): one check against the
oracle `net`, returning the updated configuration record and the list of
log lines the check emits (each `logMessage` call contributes one line). -/
def checkIP (net : String → Nat → AttemptOutcome) (config : Config) :
    Config × List String :=
  match (fetchExternalIP net config.IPEndpoint 1 config.MaxRetries).1 with
  | .error err =>
    (config, ["Error checking IP: " ++ err.message])
  | .ok ip =>
    if ip ≠ config.LastKnownIP then
      if config.LastKnownIP = "" then
        ({ config with LastKnownIP := ip }, ["Current external IP: " ++ ip])
      else
        ({ config with LastKnownIP := ip },
          ["IP changed: " ++ config.LastKnownIP ++ " -> " ++ ip])
    else
      (config, [])

/-! ### Auxiliary predicates -/

/-- An attempt outcome the code treats as a failed attempt (retry-eligible):
a transport error, or a response whose status is outside the 2xx range. -/
def isFailure : AttemptOutcome → Bool
  | .transportErr _ => true
  | .response s _ => s < 200 || 300 ≤ s

/-- Whether an error is an exhausted-retries error that carries both the
attempt count and the last-seen failure cause. -/
def isExhaustedWithCause : FetchError → Bool
  | .exhaustedTransport _ _ => true
  | .exhaustedStatus _ _ => true
  | _ => false

/-! ### Step lemmas for `fetchExternalIP` -/

theorem fetch_guard (net : String → Nat → AttemptOutcome) (ep : String)
    {attempt maxAttempts : Nat} (h : maxAttempts < attempt) :
    fetchExternalIP net ep attempt maxAttempts =
      (.error (.exhaustedNoCause maxAttempts), 0) := by
  rw [fetchExternalIP]
  simp [h]

theorem fetch_retry (net : String → Nat → AttemptOutcome) (ep : String)
    {attempt maxAttempts : Nat} (h : attempt < maxAttempts)
    (hnet : isFailure (net ep attempt) = true) :
    fetchExternalIP net ep attempt maxAttempts =
      ((fetchExternalIP net ep (attempt + 1) maxAttempts).1,
        (fetchExternalIP net ep (attempt + 1) maxAttempts).2 + 1) := by
  rw [fetchExternalIP]
  have hg : ¬ attempt > maxAttempts := by omega
  cases hc : net ep attempt with
  | transportErr c => simp [hg, hc, h]
  | response s b =>
    rw [hc] at hnet
    simp only [isFailure] at hnet
    simp [hg, hc, h, hnet]

theorem fetch_giveup_transport (net : String → Nat → AttemptOutcome) (ep : String)
    {maxAttempts : Nat} {c : String} (hnet : net ep maxAttempts = .transportErr c) :
    fetchExternalIP net ep maxAttempts maxAttempts =
      (.error (.exhaustedTransport maxAttempts c), 1) := by
  rw [fetchExternalIP]
  simp [hnet]

theorem fetch_giveup_status (net : String → Nat → AttemptOutcome) (ep : String)
    {maxAttempts s : Nat} {b : Except String String}
    (hnet : net ep maxAttempts = .response s b) (hs : s < 200 ∨ 300 ≤ s) :
    fetchExternalIP net ep maxAttempts maxAttempts =
      (.error (.exhaustedStatus maxAttempts s), 1) := by
  rw [fetchExternalIP]
  have hs' : (decide (s < 200) || decide (300 ≤ s)) = true := by
    rcases hs with hs | hs <;> simp [hs]
  simp [hnet, hs']

theorem fetch_success (net : String → Nat → AttemptOutcome) (ep : String)
    {attempt maxAttempts s : Nat} {raw : String}
    (h : attempt ≤ maxAttempts) (hnet : net ep attempt = .response s (.ok raw))
    (h200 : 200 ≤ s) (h300 : s < 300) :
    fetchExternalIP net ep attempt maxAttempts = (.ok (parseBody raw), 1) := by
  rw [fetchExternalIP]
  have hg : ¬ attempt > maxAttempts := by omega
  have hs1 : ¬ s < 200 := by omega
  have hs2 : ¬ 300 ≤ s := by omega
  simp [hg, hnet, hs1, hs2]

theorem fetch_read_failure (net : String → Nat → AttemptOutcome) (ep : String)
    {attempt maxAttempts s : Nat} {c : String}
    (h : attempt ≤ maxAttempts) (hnet : net ep attempt = .response s (.error c))
    (h200 : 200 ≤ s) (h300 : s < 300) :
    fetchExternalIP net ep attempt maxAttempts = (.error (.readFailed c), 1) := by
  rw [fetchExternalIP]
  have hg : ¬ attempt > maxAttempts := by omega
  have hs1 : ¬ s < 200 := by omega
  have hs2 : ¬ 300 ≤ s := by omega
  simp [hg, hnet, hs1, hs2]

/-- Skipping a block of failed attempts: if attempts `attempt, ..., attempt+j-1`
all fail and `attempt + j` is still within budget, the run reduces to the run
starting at `attempt + j`, with `j` extra network calls. -/
theorem fetch_skip_failures (net : String → Nat → AttemptOutcome) (ep : String) :
    ∀ (j attempt maxAttempts : Nat),
      attempt + j ≤ maxAttempts →
      (∀ i, attempt ≤ i → i < attempt + j → isFailure (net ep i) = true) →
      fetchExternalIP net ep attempt maxAttempts =
        ((fetchExternalIP net ep (attempt + j) maxAttempts).1,
          (fetchExternalIP net ep (attempt + j) maxAttempts).2 + j) := by
  intro j
  induction j with
  | zero => intro attempt maxAttempts _ _; simp
  | succ j ih =>
    intro attempt maxAttempts hle hfail
    have h1 : attempt < maxAttempts := by omega
    have hf : isFailure (net ep attempt) = true := hfail attempt le_rfl (by omega)
    rw [fetch_retry net ep h1 hf]
    have := ih (attempt + 1) maxAttempts (by omega) (fun i hi hi' => hfail i (by omega) (by omega))
    rw [this]
    have harith : attempt + 1 + j = attempt + (j + 1) := by omega
    rw [harith]
    rfl

/-- Shape of every error a run started within budget can return: an
exhausted-retries error recording `maxAttempts` and the outcome of the final
attempt, or a body-read error. -/
theorem fetch_error_shape (net : String → Nat → AttemptOutcome) (ep : String) :
    ∀ (d attempt maxAttempts : Nat), attempt + d = maxAttempts → 1 ≤ attempt →
      ∀ e, (fetchExternalIP net ep attempt maxAttempts).1 = .error e →
        (∃ c, e = .exhaustedTransport maxAttempts c ∧
          net ep maxAttempts = .transportErr c) ∨
        (∃ s b, e = .exhaustedStatus maxAttempts s ∧
          net ep maxAttempts = .response s b ∧ (s < 200 ∨ 300 ≤ s)) ∨
        (∃ c, e = .readFailed c) := by
  intro d
  induction d with
  | zero =>
    intro attempt maxAttempts hd h1 e herr
    have ha : attempt = maxAttempts := by omega
    subst ha
    cases hc : net ep attempt with
    | transportErr c =>
      rw [fetch_giveup_transport net ep hc] at herr
      simp only [Except.error.injEq] at herr
      exact Or.inl ⟨c, herr.symm, rfl⟩
    | response s b =>
      by_cases hs : s < 200 ∨ 300 ≤ s
      · rw [fetch_giveup_status net ep hc hs] at herr
        simp only [Except.error.injEq] at herr
        exact Or.inr (Or.inl ⟨s, b, herr.symm, rfl, hs⟩)
      · have h200 : 200 ≤ s := by omega
        have h300 : s < 300 := by omega
        cases b with
        | error c =>
          rw [fetch_read_failure net ep le_rfl hc h200 h300] at herr
          simp only [Except.error.injEq] at herr
          exact Or.inr (Or.inr ⟨c, herr.symm⟩)
        | ok raw =>
          rw [fetch_success net ep le_rfl hc h200 h300] at herr
          simp at herr
  | succ d ih =>
    intro attempt maxAttempts hd h1 e herr
    have h2 : attempt < maxAttempts := by omega
    by_cases hf : isFailure (net ep attempt) = true
    · rw [fetch_retry net ep h2 hf] at herr
      exact ih (attempt + 1) maxAttempts (by omega) (by omega) e herr
    · cases hc : net ep attempt with
      | transportErr c => simp [isFailure, hc] at hf
      | response s b =>
        have hs : ¬ (s < 200 ∨ 300 ≤ s) := by
          intro hcon
          apply hf
          rcases hcon with h | h <;> simp [isFailure, hc, h]
        have h200 : 200 ≤ s := by omega
        have h300 : s < 300 := by omega
        cases b with
        | error c =>
          rw [fetch_read_failure net ep (by omega) hc h200 h300] at herr
          simp only [Except.error.injEq] at herr
          exact Or.inr (Or.inr ⟨c, herr.symm⟩)
        | ok raw =>
          rw [fetch_success net ep (by omega) hc h200 h300] at herr
          simp at herr

/-! ### Claims -/

/-- Claim C9: a run entered with `attempt = 1` and `maxAttempts ≥ 1` never
returns the no-cause guard error `"failed to make request after %d attempts"`
(main.go line 141): the guard `attempt > maxAttempts` is unreachable because
every recursive call keeps `attempt ≤ maxAttempts`. -/
theorem claim_C9 (net : String → Nat → AttemptOutcome) (ep : String)
    (maxAttempts n : Nat) (hN : 1 ≤ maxAttempts) :
    (fetchExternalIP net ep 1 maxAttempts).1 ≠ .error (.exhaustedNoCause n) := by
  intro herr
  rcases fetch_error_shape net ep (maxAttempts - 1) 1 maxAttempts (by omega) le_rfl
      (.exhaustedNoCause n) herr with ⟨c, he, _⟩ | ⟨s, b, he, _, _⟩ | ⟨c, he⟩ <;>
    simp at he

/-- Witness for C9 at `maxAttempts = 1` and an always-failing endpoint. -/
theorem claim_C9_witness :
    (fetchExternalIP (fun _ _ => .transportErr "x") "e" 1 1).1 ≠
      .error (.exhaustedNoCause 1) :=
  claim_C9 (fun _ _ => .transportErr "x") "e" 1 1 (by decide)

/-- Counterexample to claim C1 as stated: with a 2xx response whose body read
fails, `fetchExternalIP` returns the error of main.go line 167, which is not
an exhausted-retries error and carries no attempt count — so an error other
than the exhausted-retries one does cross the Fetcher/Watcher boundary. -/
theorem claim_C1_counterexample :
    (fetchExternalIP (fun _ _ => .response 200 (.error "connection reset")) "e" 1 5).1
        = .error (.readFailed "connection reset") ∧
    isExhaustedWithCause (.readFailed "connection reset") = false ∧
    (FetchError.readFailed "connection reset").attemptCount = none := by
  refine ⟨?_, rfl, rfl⟩
  rw [fetch_read_failure (fun _ _ => .response 200 (.error "connection reset")) "e"
    (by omega) rfl (by omega) (by omega)]

/-- Claim C1 (amended): for every endpoint, `maxAttempts ≥ 1` and sequence of
attempt outcomes, every error returned by `fetchExternalIP` entered with
`attempt = 1` is either an exhausted-retries error carrying the total attempt
count and the last-seen failure cause (the transport error or non-2xx status
of the final attempt), or the body-read error of main.go line 167, which
carries only its cause and no attempt count. -/
theorem claim_C1 (net : String → Nat → AttemptOutcome) (ep : String)
    (maxAttempts : Nat) (hN : 1 ≤ maxAttempts) :
    ∀ e, (fetchExternalIP net ep 1 maxAttempts).1 = .error e →
      (isExhaustedWithCause e = true ∧ e.attemptCount = some maxAttempts ∧
        ((∃ c, e = .exhaustedTransport maxAttempts c ∧
            net ep maxAttempts = .transportErr c) ∨
         (∃ s b, e = .exhaustedStatus maxAttempts s ∧
            net ep maxAttempts = .response s b ∧ (s < 200 ∨ 300 ≤ s)))) ∨
      (∃ c, e = .readFailed c ∧ isExhaustedWithCause e = false) := by
  intro e herr
  rcases fetch_error_shape net ep (maxAttempts - 1) 1 maxAttempts (by omega) le_rfl
      e herr with h | h | h
  · obtain ⟨c, he, hc⟩ := h
    subst he
    exact Or.inl ⟨rfl, rfl, Or.inl ⟨c, rfl, hc⟩⟩
  · obtain ⟨s, b, he, hc, hs⟩ := h
    subst he
    exact Or.inl ⟨rfl, rfl, Or.inr ⟨s, b, rfl, hc, hs⟩⟩
  · obtain ⟨c, he⟩ := h
    subst he
    exact Or.inr ⟨c, rfl, rfl⟩

/-- Witness for C1 at a concrete always-failing endpoint: the returned
exhausted-retries error carries the attempt count 2. -/
theorem claim_C1_witness :
    isExhaustedWithCause (.exhaustedTransport 2 "no route") = true ∧
    (FetchError.exhaustedTransport 2 "no route").attemptCount = some 2 := by
  have h := claim_C1 (fun _ _ => .transportErr "no route") "e" 2 (by decide)
    (.exhaustedTransport 2 "no route") (by simp [fetchExternalIP])
  rcases h with ⟨h1, h2, _⟩ | ⟨c, hc, _⟩
  · exact ⟨h1, h2⟩
  · simp at hc

/-- Claim C3: for `maxAttempts = N ≥ 1` and an endpoint whose every request
fails (transport error or non-2xx status), `fetchExternalIP` entered with
`attempt = 1` performs exactly `N` network calls and returns an error that
reports `N` attempts (its message contains `"<N> attempts"`). -/
theorem claim_C3 (net : String → Nat → AttemptOutcome) (ep : String)
    (N : Nat) (hN : 1 ≤ N)
    (hfail : ∀ k, 1 ≤ k → k ≤ N → isFailure (net ep k) = true) :
    (fetchExternalIP net ep 1 N).2 = N ∧
    ∃ e, (fetchExternalIP net ep 1 N).1 = .error e ∧
      e.attemptCount = some N ∧
      ∃ pre suf, e.message = pre ++ (toString N ++ (" attempts" ++ suf)) := by
  have hskip := fetch_skip_failures net ep (N - 1) 1 N (by omega)
    (fun i hi hi' => hfail i hi (by omega))
  have h1N : 1 + (N - 1) = N := by omega
  rw [h1N] at hskip
  have hlast := hfail N hN le_rfl
  cases hc : net ep N with
  | transportErr c =>
    rw [fetch_giveup_transport net ep hc] at hskip
    rw [hskip]
    refine ⟨by simp; omega, .exhaustedTransport N c, rfl, rfl,
      "failed to make request after ", ": " ++ c, ?_⟩
    simp only [FetchError.message, String.append_assoc]
    rw [show (" attempts" ++ (": " ++ c)) = (" attempts" ++ ": ") ++ c from
      (String.append_assoc _ _ _).symm]
    rfl
  | response s b =>
    rw [hc] at hlast
    simp only [isFailure, Bool.or_eq_true, decide_eq_true_eq] at hlast
    rw [fetch_giveup_status net ep hc hlast] at hskip
    rw [hskip]
    refine ⟨by simp; omega, .exhaustedStatus N s, rfl, rfl,
      "failed after ", ": HTTP status " ++ toString s, ?_⟩
    simp only [FetchError.message, String.append_assoc]
    rw [show (" attempts" ++ (": HTTP status " ++ toString s))
        = (" attempts" ++ ": HTTP status ") ++ toString s from
      (String.append_assoc _ _ _).symm]
    rfl

/-- Witness for C3: two transport failures with `maxAttempts = 2` make exactly
2 network calls and report 2 attempts. -/
theorem claim_C3_witness :
    (fetchExternalIP (fun _ _ => .transportErr "down") "e" 1 2).2 = 2 ∧
    ∃ e, (fetchExternalIP (fun _ _ => .transportErr "down") "e" 1 2).1 = .error e ∧
      e.attemptCount = some 2 ∧
      ∃ pre suf, e.message = pre ++ (toString 2 ++ (" attempts" ++ suf)) :=
  claim_C3 (fun _ _ => .transportErr "down") "e" 2 (by decide)
    (fun _ _ _ => rfl)

/-- Claim C4: for `maxAttempts = N ≥ 1` and `k < N`, if the endpoint fails its
first `k` requests and the next one succeeds (2xx status, readable body),
`fetchExternalIP` entered with `attempt = 1` returns the fetched address with
no error after exactly `k + 1` network calls. -/
theorem claim_C4 (net : String → Nat → AttemptOutcome) (ep : String)
    (N k s : Nat) (raw : String) (hkN : k < N)
    (hfail : ∀ i, 1 ≤ i → i ≤ k → isFailure (net ep i) = true)
    (hsucc : net ep (k + 1) = .response s (.ok raw))
    (h200 : 200 ≤ s) (h300 : s < 300) :
    fetchExternalIP net ep 1 N = (.ok (parseBody raw), k + 1) := by
  have hskip := fetch_skip_failures net ep k 1 N (by omega)
    (fun i hi hi' => hfail i hi (by omega))
  have h1k : 1 + k = k + 1 := Nat.add_comm 1 k
  rw [h1k] at hskip
  rw [hskip, fetch_success net ep (by omega) hsucc h200 h300]
  simp [Nat.add_comm]

/-- Witness for C4: one transport failure then a 2xx plain-text success with
`maxAttempts = 3` yields the address after exactly 2 calls. -/
theorem claim_C4_witness :
    fetchExternalIP
        (fun _ n => if n = 1 then .transportErr "t" else .response 200 (.ok "9.9.9.9"))
        "e" 1 3 = (.ok "9.9.9.9", 2) := by
  have h := claim_C4
    (fun _ n => if n = 1 then .transportErr "t" else .response 200 (.ok "9.9.9.9"))
    "e" 3 1 200 "9.9.9.9" (by decide)
    (fun i h1 h2 => by
      have hi : i = 1 := by omega
      subst hi
      rfl)
    rfl (by decide) (by decide)
  rw [h]
  rfl

/-- Claim C7: within budget (`1 ≤ attempt ≤ maxAttempts`), an attempt is
successful exactly when no transport error occurs and `200 ≤ status < 300`
(then the run stops after this single call, returning the parsed body or the
read error); every failed attempt — transport error or non-2xx alike — is
retried by the same single recursive step; and when the final attempt fails
with a non-2xx status, the returned error carries the attempt count and that
status code. -/
theorem claim_C7 (net : String → Nat → AttemptOutcome) (ep : String)
    (attempt maxAttempts : Nat) (h1 : 1 ≤ attempt) (h2 : attempt ≤ maxAttempts) :
    (∀ s raw, net ep attempt = .response s (.ok raw) → 200 ≤ s → s < 300 →
      fetchExternalIP net ep attempt maxAttempts = (.ok (parseBody raw), 1)) ∧
    (∀ s c, net ep attempt = .response s (.error c) → 200 ≤ s → s < 300 →
      fetchExternalIP net ep attempt maxAttempts = (.error (.readFailed c), 1)) ∧
    (attempt < maxAttempts → isFailure (net ep attempt) = true →
      fetchExternalIP net ep attempt maxAttempts =
        ((fetchExternalIP net ep (attempt + 1) maxAttempts).1,
          (fetchExternalIP net ep (attempt + 1) maxAttempts).2 + 1)) ∧
    (∀ s b, attempt = maxAttempts → net ep attempt = .response s b →
      (s < 200 ∨ 300 ≤ s) →
      (fetchExternalIP net ep attempt maxAttempts).1 =
          .error (.exhaustedStatus maxAttempts s) ∧
        (FetchError.exhaustedStatus maxAttempts s).attemptCount = some maxAttempts) ∧
    (∀ c, attempt = maxAttempts → net ep attempt = .transportErr c →
      (fetchExternalIP net ep attempt maxAttempts).1 =
        .error (.exhaustedTransport maxAttempts c)) := by
  refine ⟨?_, ?_, ?_, ?_, ?_⟩
  · intro s raw hnet h200 h300
    exact fetch_success net ep h2 hnet h200 h300
  · intro s c hnet h200 h300
    exact fetch_read_failure net ep h2 hnet h200 h300
  · intro hlt hf
    exact fetch_retry net ep hlt hf
  · intro s b heq hnet hs
    subst heq
    rw [fetch_giveup_status net ep hnet hs]
    exact ⟨rfl, rfl⟩
  · intro c heq hnet
    subst heq
    rw [fetch_giveup_transport net ep hnet]

/-- Witness for C7: a single-attempt run against a 404 endpoint returns the
exhausted error carrying attempt count 1 and status 404. -/
theorem claim_C7_witness :
    (fetchExternalIP (fun _ _ => .response 404 (.ok "nf")) "e" 1 1).1 =
        .error (.exhaustedStatus 1 404) ∧
      (FetchError.exhaustedStatus 1 404).attemptCount = some 1 :=
  (claim_C7 (fun _ _ => .response 404 (.ok "nf")) "e" 1 1 (by decide)
      (by decide)).2.2.2.1 404 (.ok "nf") rfl rfl (by omega)

/-- The JSON body of the C5 example, `{"ip":"203.0.113.5"}`. -/
def jsonBodyExample : String :=
  "\x7b\"ip\":\"203.0.113.5\"\x7d"

/-- Claim C5: the body-interpretation step returns the decoded non-empty `ip`
field when JSON decoding succeeds with one, and otherwise (decode failure, or
an empty/absent `ip` field) returns the whole body verbatim; it never fails.
In particular the body `{"ip":"203.0.113.5"}` yields `"203.0.113.5"` and the
non-JSON body `"203.0.113.9"` yields itself verbatim.  The final conjuncts
check the decoder against `json.Unmarshal` on bodies with an unknown
non-string member, a case-folded key, and an escaped value: the decoded
`ip` is returned, not the body verbatim. -/
theorem claim_C5 (raw ip : String) :
    (unmarshalIP raw = some ip → ip ≠ "" → parseBody raw = ip) ∧
    (unmarshalIP raw = none → parseBody raw = raw) ∧
    (unmarshalIP raw = some "" → parseBody raw = raw) ∧
    parseBody jsonBodyExample = "203.0.113.5" ∧
    parseBody "203.0.113.9" = "203.0.113.9" ∧
    parseBody "\x7b\"n\":1,\"ip\":\"203.0.113.5\"\x7d" = "203.0.113.5" ∧
    parseBody "\x7b\"IP\":\"203.0.113.5\"\x7d" = "203.0.113.5" ∧
    parseBody "\x7b\"ip\":\"a\\nb\"\x7d" = "a\nb" := by
  refine ⟨?_, ?_, ?_, rfl, rfl, rfl, rfl, rfl⟩
  · intro h hne
    simp [parseBody, h, hne]
  · intro h
    simp [parseBody, h]
  · intro h
    simp [parseBody, h]

/-- Witness for C5 at the two concrete bodies of the claim. -/
theorem claim_C5_witness :
    parseBody jsonBodyExample = "203.0.113.5" ∧
    parseBody "203.0.113.9" = "203.0.113.9" :=
  ⟨(claim_C5 jsonBodyExample "203.0.113.5").1 rfl (by decide),
    (claim_C5 "203.0.113.9" "x").2.1 rfl⟩

/-- Claim C10: a 2xx response with an empty body makes `fetchExternalIP`
return success with the empty string after one call — the JSON step fails on
the empty body and the raw-text fallback returns it verbatim; no validation
rejects an empty or non-IP-shaped result. -/
theorem claim_C10 (net : String → Nat → AttemptOutcome) (ep : String)
    (N s : Nat) (hN : 1 ≤ N)
    (hnet : net ep 1 = .response s (.ok "")) (h200 : 200 ≤ s) (h300 : s < 300) :
    (fetchExternalIP net ep 1 N).1 = .ok "" ∧
    (fetchExternalIP net ep 1 N).2 = 1 ∧
    unmarshalIP "" = none ∧
    parseBody "" = "" := by
  rw [fetch_success net ep (by omega) hnet h200 h300]
  exact ⟨rfl, rfl, rfl, rfl⟩

/-- Witness for C10: a 204 response with an empty body. -/
theorem claim_C10_witness :
    (fetchExternalIP (fun _ _ => .response 204 (.ok "")) "e" 1 5).1 = .ok "" ∧
    (fetchExternalIP (fun _ _ => .response 204 (.ok "")) "e" 1 5).2 = 1 ∧
    unmarshalIP "" = none ∧
    parseBody "" = "" :=
  claim_C10 (fun _ _ => .response 204 (.ok "")) "e" 5 204 (by decide) rfl
    (by decide) (by decide)

/-- A configuration whose cache already holds an address. -/
def cfgCached : Config :=
  { Interval := 60, LogFile := "", IPEndpoint := "e", QuietMode := false,
    MaxRetries := 5, LastKnownIP := "1.2.3.4" }

/-- A configuration whose cache is still empty (no address observed yet). -/
def cfgEmpty : Config :=
  { Interval := 60, LogFile := "", IPEndpoint := "e", QuietMode := false,
    MaxRetries := 5, LastKnownIP := "" }

/-- An endpoint that always answers 200 with an empty body. -/
def netEmptyBody : String → Nat → AttemptOutcome :=
  fun _ _ => .response 200 (.ok "")

/-- Counterexample to claim C2 as stated: with a non-empty cache, a successful
fetch of the empty string (200 response, empty body) is not a "different
non-empty string", yet `checkIP` still overwrites the cache, setting
`LastKnownIP` from `"1.2.3.4"` to `""` — refuting the claimed "only if". -/
theorem claim_C2_counterexample :
    cfgCached.LastKnownIP = "1.2.3.4" ∧
    (fetchExternalIP netEmptyBody cfgCached.IPEndpoint 1 cfgCached.MaxRetries).1
        = .ok "" ∧
    (checkIP netEmptyBody cfgCached).1.LastKnownIP = "" ∧
    (checkIP netEmptyBody cfgCached).1.LastKnownIP ≠ cfgCached.LastKnownIP := by
  have hf : fetchExternalIP netEmptyBody cfgCached.IPEndpoint 1 cfgCached.MaxRetries
      = (.ok (parseBody ""), 1) :=
    fetch_success netEmptyBody cfgCached.IPEndpoint (by decide) rfl
      (by decide) (by decide)
  have hok : (fetchExternalIP netEmptyBody cfgCached.IPEndpoint 1
      cfgCached.MaxRetries).1 = .ok "" := by
    rw [hf]
    rfl
  refine ⟨rfl, hok, ?_, ?_⟩ <;>
    · unfold checkIP
      rw [hok]
      decide

/-- Claim C2 (amended): if `checkIP`'s fetch fails, the configuration — in
particular `LastKnownIP` — is unchanged; and once `LastKnownIP` is non-empty,
`checkIP` sets it to a new value if and only if the fetch succeeds and
returns a different string (which, per the counterexample, may be empty). -/
theorem claim_C2 (net : String → Nat → AttemptOutcome) (cfg : Config) :
    (∀ e, (fetchExternalIP net cfg.IPEndpoint 1 cfg.MaxRetries).1 = .error e →
      (checkIP net cfg).1 = cfg) ∧
    (cfg.LastKnownIP ≠ "" →
      ((checkIP net cfg).1.LastKnownIP ≠ cfg.LastKnownIP ↔
        ∃ ip, (fetchExternalIP net cfg.IPEndpoint 1 cfg.MaxRetries).1 = .ok ip ∧
          ip ≠ cfg.LastKnownIP)) := by
  cases hres : (fetchExternalIP net cfg.IPEndpoint 1 cfg.MaxRetries).1 with
  | error err =>
    constructor
    · intro e he
      simp [checkIP, hres]
    · intro hne
      simp [checkIP, hres]
  | ok ip =>
    constructor
    · intro e he
      exact Except.noConfusion he
    · intro hne
      by_cases hip : ip = cfg.LastKnownIP
      · subst hip
        simp [checkIP, hres]
      · simp [checkIP, hres, hip, hne]

/-- Witness for C2: a permanently failing endpoint leaves the cached
configuration unchanged. -/
theorem claim_C2_witness :
    (checkIP (fun _ _ => .transportErr "down") cfgCached).1 = cfgCached := by
  have h := (claim_C2 (fun _ _ => .transportErr "down") cfgCached).1
    (.exhaustedTransport 5 "down") (by simp [fetchExternalIP, cfgCached])
  exact h

/-- Claim C6: starting from an empty cache, three checks whose fetches return
`A`, `A`, `B` (with `A`, `B` non-empty and distinct) log exactly
`"Current external IP: A"`, then nothing, then `"IP changed: A -> B"`; in
particular the two consecutive equal results produce exactly one log line in
total. -/
theorem claim_C6 (net1 net2 net3 : String → Nat → AttemptOutcome)
    (cfg : Config) (A B : String)
    (hA : A ≠ "") (hB : B ≠ "") (hAB : A ≠ B) (h0 : cfg.LastKnownIP = "")
    (h1 : (fetchExternalIP net1 cfg.IPEndpoint 1 cfg.MaxRetries).1 = .ok A)
    (h2 : (fetchExternalIP net2 cfg.IPEndpoint 1 cfg.MaxRetries).1 = .ok A)
    (h3 : (fetchExternalIP net3 cfg.IPEndpoint 1 cfg.MaxRetries).1 = .ok B) :
    (checkIP net1 cfg).2 = ["Current external IP: " ++ A] ∧
    (checkIP net2 (checkIP net1 cfg).1).2 = [] ∧
    (checkIP net3 (checkIP net2 (checkIP net1 cfg).1).1).2 =
      ["IP changed: " ++ A ++ " -> " ++ B] ∧
    (checkIP net1 cfg).2.length + (checkIP net2 (checkIP net1 cfg).1).2.length
      = 1 := by
  have hstep1 : checkIP net1 cfg =
      ({ cfg with LastKnownIP := A }, ["Current external IP: " ++ A]) := by
    simp [checkIP, h1, h0, hA]
  have hstep2 : checkIP net2 ({ cfg with LastKnownIP := A }) =
      ({ cfg with LastKnownIP := A }, []) := by
    simp [checkIP, h2]
  have hBA : ¬ B = A := fun h => hAB h.symm
  have hstep3 : checkIP net3 ({ cfg with LastKnownIP := A }) =
      ({ cfg with LastKnownIP := B },
        ["IP changed: " ++ A ++ " -> " ++ B]) := by
    simp [checkIP, h3, hBA, hA]
  simp [hstep1, hstep2, hstep3]

/-- Witness for C6: addresses `7.7.7.7`, `7.7.7.7`, `8.8.8.8` served as 2xx
plain-text bodies. -/
theorem claim_C6_witness :
    (checkIP (fun _ _ => .response 200 (.ok "7.7.7.7")) cfgEmpty).2 =
        ["Current external IP: " ++ "7.7.7.7"] ∧
    (checkIP (fun _ _ => .response 200 (.ok "7.7.7.7"))
        (checkIP (fun _ _ => .response 200 (.ok "7.7.7.7")) cfgEmpty).1).2 = [] ∧
    (checkIP (fun _ _ => .response 200 (.ok "8.8.8.8"))
        (checkIP (fun _ _ => .response 200 (.ok "7.7.7.7"))
          (checkIP (fun _ _ => .response 200 (.ok "7.7.7.7")) cfgEmpty).1).1).2 =
      ["IP changed: " ++ "7.7.7.7" ++ " -> " ++ "8.8.8.8"] ∧
    (checkIP (fun _ _ => .response 200 (.ok "7.7.7.7")) cfgEmpty).2.length +
      (checkIP (fun _ _ => .response 200 (.ok "7.7.7.7"))
        (checkIP (fun _ _ => .response 200 (.ok "7.7.7.7")) cfgEmpty).1).2.length
      = 1 :=
  claim_C6 (fun _ _ => .response 200 (.ok "7.7.7.7"))
    (fun _ _ => .response 200 (.ok "7.7.7.7"))
    (fun _ _ => .response 200 (.ok "8.8.8.8"))
    cfgEmpty "7.7.7.7" "8.8.8.8" (by decide) (by decide) (by decide) rfl
    (by
      rw [fetch_success (fun _ _ => .response 200 (.ok "7.7.7.7")) cfgEmpty.IPEndpoint
        (by decide) rfl (by decide) (by decide)]
      rfl)
    (by
      rw [fetch_success (fun _ _ => .response 200 (.ok "7.7.7.7")) cfgEmpty.IPEndpoint
        (by decide) rfl (by decide) (by decide)]
      rfl)
    (by
      rw [fetch_success (fun _ _ => .response 200 (.ok "8.8.8.8")) cfgEmpty.IPEndpoint
        (by decide) rfl (by decide) (by decide)]
      rfl)

/-- Claim C8: `checkIP` never changes `Interval`, `LogFile`, `IPEndpoint`,
`QuietMode` or `MaxRetries`; the only `Config` field it may mutate is
`LastKnownIP`. -/
theorem claim_C8 (net : String → Nat → AttemptOutcome) (cfg : Config) :
    (checkIP net cfg).1.Interval = cfg.Interval ∧
    (checkIP net cfg).1.LogFile = cfg.LogFile ∧
    (checkIP net cfg).1.IPEndpoint = cfg.IPEndpoint ∧
    (checkIP net cfg).1.QuietMode = cfg.QuietMode ∧
    (checkIP net cfg).1.MaxRetries = cfg.MaxRetries := by
  cases hres : (fetchExternalIP net cfg.IPEndpoint 1 cfg.MaxRetries).1 with
  | error err => simp [checkIP, hres]
  | ok ip =>
    simp only [checkIP, hres]
    split
    · split <;> simp
    · simp

end IPWatcher
